import Mathlib

/-!
Shallow embedding of the go-structs library (packages `option`, `either`,
`equal` and `try`) and proofs about it.

Modelling conventions:
* Go structs become Lean structures with the same fields; Go's zero value of a
  type parameter is modelled by `default` of an `Inhabited` instance.
* The side-effecting closures of the `try` package (`finallyFunction`, the
  callbacks passed to `Finally`/`ForEach`) only ever emit opaque user events
  and cascade `End` calls, deterministically.  A deferred action is therefore
  embedded as the trace of events it emits when run (`List ε` for an opaque
  event type `ε`); a caller-supplied callback `func(T)` becomes `T → List ε`.
  An effectful Go function both returns a value and runs actions, so `End`
  returns the pair of its Go return value and the trace it emits; the
  purely-effectful `ForEach` just returns its trace.
-/

namespace equal

/-- Models `equal.Equals` at a type with no custom `Equals` method, where the
Go code falls back to `reflect.DeepEqual`; `BEq` plays the role of the
deep structural comparison. -/
def Equals {T : Type} [BEq T] (value1 value2 : T) : Bool :=
  value1 == value2

end equal

namespace option

/-- Go struct `option.Option[T]`: a value field plus an emptiness flag.
`value` holds the zero value (`default`) when constructed by `Empty`. -/
structure Option (T : Type) where
  value : T
  isEmpty : Bool
deriving DecidableEq

/-- Go `option.Pure`. -/
def Pure {T : Type} (value : T) : Option T :=
  { value := value, isEmpty := false }

/-- Go `option.Empty`: the `value` field is left at Go's zero value,
modelled by `default`. -/
def Empty {T : Type} [Inhabited T] : Option T :=
  { value := default, isEmpty := true }

/-- Go `option.Get`: returns the stored value without checking emptiness. -/
def Get {T : Type} (opt : Option T) : T :=
  opt.value

/-- Go `option.IsEmpty`. -/
def IsEmpty {T : Type} (opt : Option T) : Bool :=
  opt.isEmpty

/-- Go `option.IsPresent`. -/
def IsPresent {T : Type} (opt : Option T) : Bool :=
  !opt.isEmpty

/-- Go method `(opt Option[T]) Equals(other)`, in the case where the dynamic
type assertion `other.(Option[T])` succeeds: the receiver is `opt`, the
asserted argument is `oo`. -/
def Equals {T : Type} [BEq T] (opt oo : Option T) : Bool :=
  (oo.isEmpty && opt.isEmpty) || equal.Equals oo.value oo.value

end option

namespace either

/-- Go struct `either.Either[L, R]`: a pair of options. -/
structure Either (L R : Type) where
  Right : option.Option R
  Left : option.Option L
deriving DecidableEq

/-- Go `either.Right`. -/
def Right {L R : Type} [Inhabited L] (r : R) : Either L R :=
  { Right := option.Pure r, Left := option.Empty }

/-- Go `either.Left`. -/
def Left {L R : Type} [Inhabited R] (l : L) : Either L R :=
  { Right := option.Empty, Left := option.Pure l }

/-- Go `either.IsRight`. -/
def IsRight {L R : Type} (e : Either L R) : Bool :=
  !(option.IsEmpty e.Right)

/-- Go `either.IsLeft`. -/
def IsLeft {L R : Type} (e : Either L R) : Bool :=
  !(option.IsEmpty e.Left)

/-- Go `either.Fold`. -/
def Fold {L R T : Type} (e : Either L R) (fLeft : L → T) (fRight : R → T) : T :=
  if IsRight e then fRight (option.Get e.Right) else fLeft (option.Get e.Left)

/-- Go `either.FlatMap`. -/
def FlatMap {L R T : Type} [Inhabited T] (e : Either L R) (f : R → Either L T) :
    Either L T :=
  Fold e Left f

/-- Go `either.Map`. -/
def Map {L R T : Type} [Inhabited L] [Inhabited T] (e : Either L R) (f : R → T) :
    Either L T :=
  FlatMap e (fun r => Right (f r))

/-- Go `either.FlatMapLeft`. -/
def FlatMapLeft {L R T : Type} [Inhabited T] (e : Either L R) (f : L → Either T R) :
    Either T R :=
  Fold e f Right

/-- Go `either.MapLeft`. -/
def MapLeft {L R T : Type} [Inhabited R] [Inhabited T] (e : Either L R) (f : L → T) :
    Either T R :=
  FlatMapLeft e (fun l => Left (f l))

/-- Go `either.ForEach`: runs `f` on the Right value if present; its result is
the trace of events emitted. -/
def ForEach {L R ε : Type} (e : Either L R) (f : R → List ε) : List ε :=
  if IsRight e then f (option.Get e.Right) else []

/-- Go `either.ToOption`. -/
def ToOption {L R : Type} (e : Either L R) : option.Option R :=
  e.Right

end either

/-- Go struct `try.Try[T]`: an `Either[error, T]` plus the deferred
`finallyFunction`, embedded as the trace of events it emits when invoked.
`ε` is the opaque event alphabet, `E` the opaque `error` type. -/
structure Try (ε E T : Type) where
  either : either.Either E T
  finallyFunction : List ε

namespace Try

/-- Go `try.Success`. -/
def Success {ε E T : Type} [Inhabited E] (value : T) : Try ε E T :=
  { either := either.Right value, finallyFunction := [] }

/-- Go `try.Fail`. -/
def Fail {ε E T : Type} [Inhabited T] (err : E) : Try ε E T :=
  { either := either.Left err, finallyFunction := [] }

/-- Go `try.IsSuccess`. -/
def IsSuccess {ε E T : Type} (t : Try ε E T) : Bool :=
  either.IsRight t.either

/-- Go `try.IsFail`. -/
def IsFail {ε E T : Type} (t : Try ε E T) : Bool :=
  either.IsLeft t.either

/-- Go `try.End`: invokes `t.finallyFunction` and returns the Try with the
no-op finalizer.  The first component is the Go return value; the second is
the trace the call emits. -/
def End {ε E T : Type} (t : Try ε E T) : Try ε E T × List ε :=
  ({ either := t.either, finallyFunction := [] }, t.finallyFunction)

/-- Go `try.Finally`: same result, new pending action
`either.ForEach(try.either, f); End(try)`. -/
def Finally {ε E T : Type} (t : Try ε E T) (f : T → List ε) : Try ε E T :=
  { either := t.either
    finallyFunction := either.ForEach t.either f ++ (End t).2 }

/-- Go `try.Fold`. -/
def Fold {ε E T R : Type} (t : Try ε E T) (fFail : E → R) (fSuccess : T → R) : R :=
  either.Fold t.either fFail fSuccess

/-- Go `try.FlatMap`.  On the failure branch the original pending action is
wired through the Success-gated callback of a `Finally` on a fresh `Fail`;
on the success branch the new pending action is `End(r); End(try)`. -/
def FlatMap {ε E T R : Type} [Inhabited T] [Inhabited R] (t : Try ε E T)
    (f : T → Try ε E R) : Try ε E R :=
  Fold t
    (fun err => Finally (Fail err) (fun _ => t.finallyFunction))
    (fun x =>
      let r := f x
      { either := r.either, finallyFunction := (End r).2 ++ (End t).2 })

/-- Go `try.Map`. -/
def Map {ε E T R : Type} [Inhabited E] [Inhabited T] [Inhabited R] (t : Try ε E T)
    (f : T → R) : Try ε E R :=
  FlatMap t (fun x => Success (f x))

/-- Go `try.FlatMapFail`. -/
def FlatMapFail {ε E T : Type} [Inhabited T] (t : Try ε E T) (f : E → Try ε E T) :
    Try ε E T :=
  Fold t
    (fun err =>
      let r := f err
      { either := r.either, finallyFunction := (End r).2 ++ (End t).2 })
    (fun _ => t)

/-- Go `try.ToOption`. -/
def ToOption {ε E T : Type} (t : Try ε E T) : option.Option T :=
  either.ToOption t.either

/-- Go `try.ToEither`. -/
def ToEither {ε E T : Type} (t : Try ε E T) : either.Either E T :=
  t.either

end Try

/-- The Either invariant of the spec: exactly one of the two branches is
present. -/
def validEither {L R : Type} (e : either.Either L R) : Bool :=
  either.IsLeft e != either.IsRight e

/-- C4: `End` emits exactly the pending action of its argument, returns a Try
with the same result and the no-op pending action, and a second `End` on the
returned value emits nothing.  The embedding is pure, so the argument itself
is never mutated. -/
theorem end_runs_pending_exactly_once {ε E T : Type} (t : Try ε E T) :
    (Try.End t).2 = t.finallyFunction ∧
    (Try.End t).1.either = t.either ∧
    (Try.End t).1.finallyFunction = [] ∧
    (Try.End (Try.End t).1).2 = [] :=
  ⟨rfl, rfl, rfl, rfl⟩

/-- C2: stacked finalizers run in LIFO order, each exactly once: ending
`Finally (Finally (Success 1) f1) f2` emits the trace `f2 1 ++ f1 1`. -/
theorem finally_stacks_lifo {ε E : Type} [Inhabited E] (f1 f2 : Nat → List ε) :
    (Try.End (Try.Finally (Try.Finally (Try.Success (ε := ε) (E := E) 1) f1) f2)).2
      = f2 1 ++ f1 1 := by
  simp [Try.End, Try.Finally, Try.Success, either.ForEach, either.IsRight,
    either.Right, option.IsEmpty, option.Pure, option.Get]

/-- C1: `FlatMap` on a failed Try propagates the same error, and the resulting
Try's pending action is empty — ending it emits nothing, in particular it
never invokes the original Try's pending action `t.finallyFunction`, which the
Success-gated `Finally` callback on the always-failed fresh `Fail` drops. -/
theorem flatMap_fail_drops_pending {ε E T R : Type} [Inhabited T] [Inhabited R]
    (t : Try ε E T) (f : T → Try ε E R) (h : Try.IsSuccess t = false) :
    (Try.FlatMap t f).either = (Try.Fail (ε := ε) (T := R) (option.Get t.either.Left)).either ∧
    Try.IsFail (Try.FlatMap t f) = true ∧
    (Try.FlatMap t f).finallyFunction = [] ∧
    (Try.End (Try.FlatMap t f)).2 = [] := by
  simp only [Try.IsSuccess, either.IsRight, option.IsEmpty, Bool.not_eq_false'] at h
  simp [Try.FlatMap, Try.Fold, either.Fold, either.IsRight, h, Try.Finally,
    Try.Fail, Try.End, Try.IsFail, either.IsLeft, either.Left, either.ForEach,
    option.IsEmpty, option.Pure, option.Empty, option.Get]

/-- A concrete failed Try with error 7 and a non-empty pending action, used to
exercise the failure branch of `FlatMap`. -/
def failedInput : Try Nat Nat Nat :=
  { either := either.Left 7, finallyFunction := [99] }

/-- C1 witness: the failure branch of `FlatMap` at a concrete failed Try. -/
theorem flatMap_fail_drops_pending_witness :
    Try.IsSuccess failedInput = false ∧
    ((Try.FlatMap failedInput (fun x => Try.Success x)).either
        = (Try.Fail (ε := Nat) (T := Nat) (option.Get failedInput.either.Left)).either ∧
      Try.IsFail (Try.FlatMap failedInput (fun x => Try.Success x)) = true ∧
      (Try.FlatMap failedInput (fun x => Try.Success x)).finallyFunction = [] ∧
      (Try.End (Try.FlatMap failedInput (fun x => Try.Success x))).2 = []) :=
  ⟨rfl, flatMap_fail_drops_pending failedInput (fun x => Try.Success x) rfl⟩

/-- C3: `FlatMap` on a successful Try computes `r = f t`, keeps `r`'s result,
and its pending action is `End r`'s trace followed by `End t`'s trace (inner
cleanup before outer cleanup); in particular, ending
`FlatMap (Finally (Success 1) h0) (fun _ => Finally (Success 2) g)` emits
`g 2` before `h0 1`. -/
theorem flatMap_success_inner_before_outer {ε E T R : Type} [Inhabited E]
    [Inhabited T] [Inhabited R] (t : Try ε E T) (f : T → Try ε E R)
    (h : Try.IsSuccess t = true) :
    (Try.FlatMap t f).either = (f (option.Get t.either.Right)).either ∧
    (Try.FlatMap t f).finallyFunction
      = (Try.End (f (option.Get t.either.Right))).2 ++ (Try.End t).2 ∧
    ∀ (g h0 : Nat → List ε),
      (Try.End (Try.FlatMap (Try.Finally (Try.Success 1) h0)
        (fun _ => Try.Finally (Try.Success (E := E) (2 : Nat)) g))).2 = g 2 ++ h0 1 := by
  simp only [Try.IsSuccess, either.IsRight, option.IsEmpty, Bool.not_eq_true'] at h
  refine ⟨?_, ?_, ?_⟩
  · simp [Try.FlatMap, Try.Fold, either.Fold, either.IsRight, option.IsEmpty, h,
      Try.End, option.Get]
  · simp [Try.FlatMap, Try.Fold, either.Fold, either.IsRight, option.IsEmpty, h,
      Try.End, option.Get]
  · intro g h0
    simp [Try.FlatMap, Try.Fold, Try.Finally, Try.Success, Try.End, either.Fold,
      either.ForEach, either.IsRight, either.Right, option.IsEmpty, option.Pure,
      option.Get]

/-- A concrete successful Try with a non-empty pending action. -/
def successInput : Try Nat Nat Nat :=
  { either := either.Right 5, finallyFunction := [77] }

/-- C3 witness: the success branch of `FlatMap` at a concrete successful Try. -/
theorem flatMap_success_inner_before_outer_witness :
    Try.IsSuccess successInput = true ∧
    ((Try.FlatMap successInput (fun x => Try.Success x)).either
        = ((fun x => Try.Success (ε := Nat) (E := Nat) x) (option.Get successInput.either.Right)).either ∧
      (Try.FlatMap successInput (fun x => Try.Success x)).finallyFunction
        = (Try.End ((fun x => Try.Success (ε := Nat) (E := Nat) x) (option.Get successInput.either.Right))).2
            ++ (Try.End successInput).2 ∧
      ∀ (g h0 : Nat → List Nat),
        (Try.End (Try.FlatMap (Try.Finally (Try.Success 1) h0)
          (fun _ => Try.Finally (Try.Success (E := Nat) (2 : Nat)) g))).2 = g 2 ++ h0 1) :=
  ⟨rfl, flatMap_success_inner_before_outer successInput (fun x => Try.Success x) rfl⟩

/-- C5 counterexample: `Get` on the absent Option of element type `Nat` does
not fail — it returns the (zero) value `0` stored in the record, so the claim
that `Get` fails with an `EmptyValueError` on an absent Option is false. -/
theorem get_on_empty_returns_value :
    option.IsEmpty (option.Empty (T := Nat)) = true ∧
    option.Get (option.Empty (T := Nat)) = 0 :=
  ⟨rfl, rfl⟩

/-- C5 amended: `Get` is total and never fails; on an absent Option it simply
returns the stored field, which `Empty` left at the zero value of `T`, and on
a present Option it returns the wrapped value. -/
theorem get_is_total {T : Type} [Inhabited T] (v : T) :
    option.Get (option.Empty (T := T)) = (default : T) ∧
    option.Get (option.Pure v) = v :=
  ⟨rfl, rfl⟩

/-- C8: `FlatMapFail` on a successful Try is the identity: the very same Try
record, result and pending action untouched, independently of `f`. -/
theorem flatMapFail_success_identity {ε E T : Type} [Inhabited T]
    (t : Try ε E T) (f : E → Try ε E T) (h : Try.IsSuccess t = true) :
    Try.FlatMapFail t f = t := by
  simp only [Try.IsSuccess, either.IsRight, option.IsEmpty, Bool.not_eq_true'] at h
  simp [Try.FlatMapFail, Try.Fold, either.Fold, either.IsRight, option.IsEmpty, h]

/-- C8 witness: `FlatMapFail` at a concrete successful Try with a non-empty
pending action. -/
theorem flatMapFail_success_identity_witness :
    Try.IsSuccess successInput = true ∧
    Try.FlatMapFail successInput (fun e => Try.Fail e) = successInput :=
  ⟨rfl, flatMapFail_success_identity successInput (fun e => Try.Fail e) rfl⟩

/-- C9: conversion round trips: `ToEither` of a success is a Right whose
`ToOption` is present and `Get`s back the value; `ToEither` of a failure is a
Left whose `ToOption` is the empty Option. -/
theorem try_conversion_round_trip {ε E T : Type} [Inhabited E] [Inhabited T]
    (v : T) (e : E) :
    either.IsRight (Try.ToEither (Try.Success (ε := ε) (E := E) v)) = true ∧
    option.Get (Try.ToOption (Try.Success (ε := ε) (E := E) v)) = v ∧
    either.IsLeft (Try.ToEither (Try.Fail (ε := ε) (T := T) e)) = true ∧
    option.IsEmpty (Try.ToOption (Try.Fail (ε := ε) (T := T) e)) = true :=
  ⟨rfl, rfl, rfl, rfl⟩

/-- C10: `Map` is definitionally `FlatMap` composed with `Success`; hence the
result of mapping a success is the success of the image, and mapping a failure
leaves the error untouched. -/
theorem map_is_flatMap_success {ε E T R : Type} [Inhabited E] [Inhabited T]
    [Inhabited R] (t : Try ε E T) (f : T → R) (v : T) (e : E) :
    Try.Map t f = Try.FlatMap t (fun x => Try.Success (f x)) ∧
    (Try.Map (Try.Success (ε := ε) (E := E) v) f).either
      = (Try.Success (ε := ε) (E := E) (f v)).either ∧
    (Try.Map (Try.Fail (ε := ε) (T := T) e) f).either
      = (Try.Fail (ε := ε) (T := R) e).either :=
  ⟨rfl, rfl, rfl⟩

/-- C6: the constructors `Right` and `Left` produce Eithers with exactly one
branch present, and `Map`, `FlatMap`, `MapLeft` and `FlatMapLeft` preserve
that invariant whenever their input and the Eithers returned by the supplied
functions satisfy it. -/
theorem either_exactly_one_branch {L R S : Type} [Inhabited L] [Inhabited R]
    [Inhabited S] (r : R) (l : L) (e : either.Either L R) (f : R → S)
    (g : R → either.Either L S) (fl : L → S) (k : L → either.Either S R)
    (he : validEither e = true)
    (hg : ∀ x, validEither (g x) = true)
    (hk : ∀ x, validEither (k x) = true) :
    validEither (either.Right (L := L) r) = true ∧
    validEither (either.Left (R := R) l) = true ∧
    validEither (either.Map e f) = true ∧
    validEither (either.FlatMap e g) = true ∧
    validEither (either.MapLeft e fl) = true ∧
    validEither (either.FlatMapLeft e k) = true := by
  rcases e with ⟨⟨rv, rE⟩, ⟨lv, lE⟩⟩
  cases rE <;> cases lE <;>
    simp_all [validEither, either.Map, either.FlatMap, either.MapLeft,
      either.FlatMapLeft, either.Fold, either.Right, either.Left,
      either.IsRight, either.IsLeft, option.IsEmpty, option.Pure, option.Empty,
      option.Get]

/-- C6 witness: the invariant at concrete constructors and operations. -/
theorem either_exactly_one_branch_witness :
    validEither (either.Right (L := Nat) (1 : Nat)) = true ∧
    (∀ x : Nat, validEither (either.Right (L := Nat) x) = true) ∧
    (∀ x : Nat, validEither (either.Left (R := Nat) x) = true) ∧
    (validEither (either.Right (L := Nat) (0 : Nat)) = true ∧
      validEither (either.Left (R := Nat) (0 : Nat)) = true ∧
      validEither (either.Map (either.Right (L := Nat) (1 : Nat)) (fun x => x + 1)) = true ∧
      validEither (either.FlatMap (either.Right (L := Nat) (1 : Nat))
        (fun x => either.Right x)) = true ∧
      validEither (either.MapLeft (either.Right (L := Nat) (1 : Nat)) (fun x => x + 1)) = true ∧
      validEither (either.FlatMapLeft (either.Right (L := Nat) (1 : Nat))
        (fun x => either.Left x)) = true) :=
  ⟨rfl, fun _ => rfl, fun _ => rfl,
    either_exactly_one_branch 0 0 (either.Right 1) (fun x => x + 1)
      (fun x => either.Right x) (fun x => x + 1) (fun x => either.Left x)
      rfl (fun _ => rfl) (fun _ => rfl)⟩

/-- C7: `Option.Equals` compares the argument's value with itself, so over a
type whose `==` is reflexive any two Options compare equal; in particular over
`Nat`, `Pure 1` equals `Pure 2` and `Empty` equals `Pure 1`. -/
theorem option_equals_ignores_values {T : Type} [BEq T]
    (hrefl : ∀ x : T, (x == x) = true) (a b : option.Option T) :
    option.Equals a b = true ∧
    option.Equals (option.Pure (1 : Nat)) (option.Pure 2) = true ∧
    option.Equals (option.Empty (T := Nat)) (option.Pure 1) = true := by
  refine ⟨?_, by decide, by decide⟩
  simp [option.Equals, equal.Equals, hrefl]

/-- C7 witness: reflexivity of `==` on `Nat` and the conclusion at
`Empty` and `Pure 5`. -/
theorem option_equals_ignores_values_witness :
    (∀ x : Nat, (x == x) = true) ∧
    (option.Equals (option.Empty (T := Nat)) (option.Pure 5) = true ∧
      option.Equals (option.Pure (1 : Nat)) (option.Pure 2) = true ∧
      option.Equals (option.Empty (T := Nat)) (option.Pure 1) = true) :=
  ⟨fun x => by simp,
    option_equals_ignores_values (fun x => by simp) option.Empty (option.Pure 5)⟩
